import Mathlib

/-!
# Verification of the host-scanning subsystem of GageMe (`hostdb` package)

Shallow embedding of `hostdb/scan.go` (scanner core) and the data model of
`hostdb/hostdb.go`.  Durations follow Go's `time.Duration`, modelled as natural
numbers of nanoseconds.  Shared mutable state (`HostDB`) is modelled as an
explicit state record threaded through the operations; the dispatcher loop and
its workers are modelled as a step relation.
-/

namespace HostDB

/-! ## Time units (Go `time` package constants, in nanoseconds) -/

def nanosecond : Nat := 1

def millisecond : Nat := 1000000

def second : Nat := 1000000000

def minute : Nat := 60 * second

def hour : Nat := 60 * minute

def day : Nat := 24 * hour

/-! ## Package constants (`scan.go` lines 15-20) -/

def scanInterval : Nat := 30 * minute

def scanCheckInterval : Nat := 15 * second

def maxScanThreads : Nat := 100

def minScans : Nat := 25

/-! ## `calculateScanInterval` (`scan.go` lines 236-261)

The Go function reads `host.LastSeen` and `time.Since(host.LastSeen)`.  We
model the input as `Option Nat`: `none` when `LastSeen.IsZero()` holds, and
`some s` when the elapsed time `time.Since(host.LastSeen)` is `s`.
-/

def calculateScanInterval (since : Option Nat) : Nat :=
  match since with
  | none => scanInterval -- 30 minutes
  | some s =>
    if s > 28 * (24 * hour) then scanInterval * 48 -- 24 hours
    else if s > 14 * (24 * hour) then scanInterval * 24 -- 12 hours
    else if s > 7 * (24 * hour) then scanInterval * 12 -- 6 hours
    else if s > 3 * (24 * hour) then scanInterval * 8 -- 4 hours
    else if s > 2 * (24 * hour) then scanInterval * 4 -- 2 hours
    else if s > 24 * hour then scanInterval * 2 -- 1 hour
    else scanInterval -- 30 minutes

/-! ## Adaptive timeout (`scan.go` lines 69-81)

Inside `scanHost` the per-scan timeout starts at 2 minutes; when
`len(initialScanLatencies) == minScans` it becomes the middle element of the
buffer times 5, capped at 2 minutes.
-/

def scanTimeout (lats : List Nat) : Nat :=
  if lats.length = minScans then
    let t := (lats.getD (lats.length / 2) 0) * 5
    if t > 2 * minute then 2 * minute else t
  else 2 * minute

/-- The median of a sorted odd-length list: its middle element (what the
spec calls `median(samples)` for the 25-element sorted latency buffer). -/
def median (l : List Nat) : Nat := l.getD (l.length / 2) 0

/-! ## Latency buffer update (`scan.go` lines 145-154)

After a scan, if it was successful and the buffer holds fewer than 25
samples, the latency is appended; if the buffer has just reached 25
elements it is sorted ascending in place.
-/

def updateLatencies (lats : List Nat) (success : Bool) (latency : Nat) : List Nat :=
  if success ∧ lats.length < 25 then
    let l := lats ++ [latency]
    if l.length = 25 then l.insertionSort (· ≤ ·) else l
  else lats

/-! ## Substring search (`strings.Contains`, used at `scan.go` line 118) -/

/-- `beginsWith sub l` holds when `sub` occurs at the head of `l`. -/
def beginsWith : List Char → List Char → Bool
  | [], _ => true
  | _ :: _, [] => false
  | a :: as, b :: bs => a == b && beginsWith as bs

/-- `containsSeq sub l`: does `sub` occur contiguously anywhere inside `l`? -/
def containsSeq (sub : List Char) : List Char → Bool
  | [] => sub.isEmpty
  | c :: rest => beginsWith sub (c :: rest) || containsSeq sub rest

/-- Go's `strings.Contains s sub`. -/
def strContains (s sub : String) : Bool := containsSeq sub.data s.data

/-! ## Data model (`hostdb.go` lines 20-88)

Public keys are opaque identifiers, modelled as `Nat`.  `rhpv2.HostSettings`
and `rhpv3.HostPriceTable` are opaque snapshots, modelled as `Nat` with the Go
zero value `0`.  Times are `Nat` nanosecond instants; Go's zero `time.Time`
becomes `Option Nat` where it matters (`LastSeen`).  The `float64` interaction
counters become rationals.
-/

/-- `HostInteractions` (`hostdb.go` lines 42-49). -/
structure HostInteractions where
  historicSuccesses : Rat
  historicFailures : Rat
  recentSuccesses : Rat
  recentFailures : Rat
  lastUpdate : Nat
  deriving Repr, DecidableEq

/-- `HostScan` (`hostdb.go` lines 51-59). -/
structure HostScan where
  timestamp : Nat
  success : Bool
  latency : Nat
  error : String
  settings : Nat
  priceTable : Nat
  deriving Repr, DecidableEq

/-- `HostBenchmark` (`hostdb.go` lines 61-69). -/
structure HostBenchmark where
  timestamp : Nat
  success : Bool
  error : String
  uploadSpeed : Rat
  downloadSpeed : Rat
  ttfb : Nat
  deriving Repr, DecidableEq

/-- `HostDBEntry` (`hostdb.go` lines 20-40), restricted to the fields the
scanner core reads or writes. -/
structure HostDBEntry where
  publicKey : Nat
  netAddress : String
  scanHistory : List HostScan
  lastBenchmark : HostBenchmark
  interactions : HostInteractions
  lastSeen : Option Nat
  ipNets : List String
  lastIPChange : Nat
  deriving Repr, DecidableEq

/-- The scanner-relevant mutable state of `HostDB` (`hostdb.go` lines 82-87).
The Go `scanMap` is a map keyed by public key; we model it as an association
list with at most one entry per key.  `scanThreads` is a Go `int`, modelled
as `Int`. -/
structure DBState where
  benchmarking : Bool
  initialScanLatencies : List Nat
  scanList : List HostDBEntry
  benchmarkList : List HostDBEntry
  scanMap : List (Nat × Bool)
  scanThreads : Int
  deriving Repr, DecidableEq

/-- Go `delete(hdb.scanMap, key)`: remove the entry for `key` from the
association list. -/
def removeKey (k : Nat) : List (Nat × Bool) → List (Nat × Bool)
  | [] => []
  | p :: rest => if p.1 = k then removeKey k rest else p :: removeKey k rest

/-! ## External helpers missing from `src/` -/

/-- Modelled from the spec: `utils.EqualIPNets` (package `internal/utils`, not
under `src/`) — "if the set differs from the stored set"; compares the two
lists of IP networks as sets. -/
def equalIPNets (a b : List String) : Bool :=
  a.all (b.contains ·) && b.all (a.contains ·)

/-- Modelled from the spec: `updateHostHistoricInteractions` (its body is not
under `src/`; only the call site at `scan.go` line 59 is) — "a time-based
decay step brings counters forward to the current epoch: historic counters
accumulate decayed history, recent counters emphasize the sliding window".
The exact decay half-life is a parameter of the accumulator; this model folds
the recent counters into the historic ones when the epoch advances and stamps
the entry with the current epoch. -/
def updateHostHistoricInteractions (epoch : Nat) (i : HostInteractions) : HostInteractions :=
  if i.lastUpdate < epoch then
    { historicSuccesses := i.historicSuccesses + i.recentSuccesses
      historicFailures := i.historicFailures + i.recentFailures
      recentSuccesses := 0
      recentFailures := 0
      lastUpdate := epoch }
  else i

/-- Modelled from the spec: `IncrementSuccessfulInteractions` (not under
`src/`) — applies the decay step and then records one recent success. -/
def incrementSuccessfulInteractions (epoch : Nat) (i : HostInteractions) : HostInteractions :=
  let d := updateHostHistoricInteractions epoch i
  { d with recentSuccesses := d.recentSuccesses + 1 }

/-- Modelled from the spec: `IncrementFailedInteractions` (not under `src/`)
— applies the decay step and then records one recent failure. -/
def incrementFailedInteractions (epoch : Nat) (i : HostInteractions) : HostInteractions :=
  let d := updateHostHistoricInteractions epoch i
  { d with recentFailures := d.recentFailures + 1 }

/-- Modelled from the spec: `updateScanHistory` (store method, not under
`src/`; only its call site at `scan.go` line 140 is) — appends the ScanRecord
to the host's scan history. -/
def updateScanHistory (host : HostDBEntry) (scan : HostScan) : HostDBEntry :=
  { host with scanHistory := host.scanHistory ++ [scan] }

/-! ## `queueScan` (`scan.go` lines 22-40) -/

/-- `calculateScanInterval(host)` at a given current time `now`:
`host.LastSeen.IsZero()` becomes `lastSeen = none`, and `time.Since` becomes
subtraction from `now`. -/
def hostScanInterval (now : Nat) (host : HostDBEntry) : Nat :=
  calculateScanInterval (host.lastSeen.map (fun t => now - t))

def queueScan (st : DBState) (now : Nat) (host : HostDBEntry) : DBState :=
  -- If this entry is already in the scan pool, return immediately.
  if (st.scanMap.lookup host.publicKey).isSome then st
  else
    -- toBenchmark := len(ScanHistory) > 0 &&
    --   time.Since(ScanHistory[len-1].Timestamp) < calculateScanInterval(host)
    let toBenchmark : Bool :=
      match host.scanHistory.getLast? with
      | none => false
      | some sc => decide (now - sc.timestamp < hostScanInterval now host)
    let st := { st with scanMap := (host.publicKey, toBenchmark) :: st.scanMap }
    if toBenchmark then { st with benchmarkList := st.benchmarkList ++ [host] }
    else { st with scanList := st.scanList ++ [host] }

/-! ## `scanHost` (`scan.go` lines 42-161)

The outcomes of the external collaborators — address resolution
(`utils.LookupIPNets`), the two transport handshakes, the clock reads and the
store write — are inputs collected in `ScanEnv`.  The protocol closure
(lines 68-117) is folded to its observable result: RHP-v2 yields either an
error or a settings snapshot, and (only attempted on RHP-v2 success) RHP-v3
yields either an error or a price-table snapshot. -/

structure ScanEnv where
  /-- `utils.LookupIPNets(host.NetAddress)`: `some nets`, or `none` on error. -/
  resolved : Option (List String)
  /-- `time.Now()` at `scan.go` line 51. -/
  resolveTime : Nat
  /-- Current epoch used by the interaction accumulator. -/
  epoch : Nat
  /-- `start = time.Now()` at line 96. -/
  start : Nat
  /-- RHP-v2 handshake and settings RPC: error text, or the settings snapshot. -/
  v2Result : Except String Nat
  /-- RHP-v3 handshake and price-table RPC: error text, or the snapshot. -/
  v3Result : Except String Nat
  /-- `latency = time.Since(start)` at line 102, measured regardless of outcome. -/
  latency : Nat
  /-- Whether `hdb.s.updateScanHistory` returned nil at line 140. -/
  storeOk : Bool
  deriving Repr

/-- The calls `scanHost` makes into the interaction accumulator and the store,
recorded as observable effects. -/
structure ScanEffects where
  record : Option HostScan
  incSuccess : Bool
  incFailure : Bool
  deriving Repr, DecidableEq

/-- Lines 44-55 of `scan.go`: resolve the host's subnets; update the stored
set and `LastIPChange` only when resolution succeeded and the set changed
(a resolution failure is logged only). -/
def adjustIPNets (host : HostDBEntry) (env : ScanEnv) : HostDBEntry :=
  match env.resolved with
  | some nets =>
    if !equalIPNets nets host.ipNets then
      { host with ipNets := nets, lastIPChange := env.resolveTime }
    else host
  | none => host

/-- Lines 57-60 of `scan.go`: advance the host's interaction counters to the
current epoch. -/
def decayHost (epoch : Nat) (host : HostDBEntry) : HostDBEntry :=
  { host with interactions := updateHostHistoricInteractions epoch host.interactions }

/-- The `success` flag set inside the protocol closure (`scan.go` line 104):
true exactly on RHP-v2 success. -/
def scanSuccess (env : ScanEnv) : Bool := env.v2Result.isOk

/-- The settings snapshot after the closure: the RHP-v2 result, or the Go
zero value when RHP-v2 failed. -/
def scanSettings (env : ScanEnv) : Nat :=
  match env.v2Result with | .ok s => s | .error _ => 0

/-- The price-table snapshot after the closure: the RHP-v3 result when both
phases completed, otherwise the Go zero value. -/
def scanPriceTable (env : ScanEnv) : Nat :=
  match env.v2Result, env.v3Result with
  | .ok _, .ok p => p
  | _, _ => 0

/-- The error returned by the protocol closure (`scan.go` lines 68-117): the
RHP-v2 error, or else (RHP-v3 is attempted only on RHP-v2 success) the
RHP-v3 error, or nil. -/
def scanErr (env : ScanEnv) : Option String :=
  match env.v2Result with
  | .error e => some e
  | .ok _ => match env.v3Result with | .error e => some e | .ok _ => none

/-- Line 118 of `scan.go`: `err != nil && strings.Contains(err.Error(), "canceled")`. -/
def scanCanceled (env : ScanEnv) : Bool :=
  match scanErr env with | some e => strContains e "canceled" | none => false

def scanHost (st : DBState) (host : HostDBEntry) (env : ScanEnv) :
    DBState × HostDBEntry × ScanEffects :=
  -- Lines 44-60: IP-net resolution and historic-interaction update.
  let host := decayHost env.epoch (adjustIPNets host env)
  -- Lines 62-117: run the protocol closure.
  let err := scanErr env
  -- Lines 118-121: if the error mentions cancellation, abandon the scan
  -- (early return: nothing below this line happens).
  if scanCanceled env then (st, host, ⟨none, false, false⟩)
  else
    -- Lines 122-128: increment the interaction counters and set errMsg.
    let host :=
      match err with
      | none => { host with interactions := incrementSuccessfulInteractions env.epoch host.interactions }
      | some _ => { host with interactions := incrementFailedInteractions env.epoch host.interactions }
    let errMsg : String := match err with | none => "" | some e => e
    -- Lines 130-137: build the scan record.
    let scan : HostScan :=
      { timestamp := env.start
        success := scanSuccess env
        latency := env.latency
        error := errMsg
        settings := scanSettings env
        priceTable := scanPriceTable env }
    -- Lines 139-143: persist; a store error is logged only.
    let host := if env.storeOk then updateScanHistory host scan else host
    -- Lines 145-154: feed the latency tracker.
    let lats := updateLatencies st.initialScanLatencies (scanSuccess env) env.latency
    -- Lines 156-160: bookkeeping.
    let st :=
      { st with
        initialScanLatencies := lats
        scanMap := removeKey host.publicKey st.scanMap
        scanThreads := st.scanThreads - 1 }
    (st, host, ⟨some scan, err.isNone, !err.isNone⟩)

/-! ## Worker bodies launched by `scanHosts` (`scan.go` lines 191-198, 213-220)

Each worker goroutine first registers with the thread group (`hdb.tg.Add()`);
on failure it returns at once, otherwise it runs its task and deregisters.
`addErr` is whether registration failed. -/

def scanWorker (addErr : Bool) (st : DBState) (host : HostDBEntry) (env : ScanEnv) :
    DBState × HostDBEntry × ScanEffects :=
  if addErr then (st, host, ⟨none, false, false⟩) else scanHost st host env

/-- Modelled from the spec: `benchmarkHost` (not under `src/`; only its call
site at `scan.go` line 219 is) — performs the benchmark, replaces the host's
`lastBenchmark` with the new record, clears the `benchmarking` flag, and
removes the host's in-flight entry on every exit path. -/
def benchmarkHost (st : DBState) (host : HostDBEntry) (rec : HostBenchmark) :
    DBState × HostDBEntry :=
  ({ st with
      benchmarking := false
      scanMap := removeKey host.publicKey st.scanMap },
   { host with lastBenchmark := rec })

def benchmarkWorker (addErr : Bool) (st : DBState) (host : HostDBEntry) (rec : HostBenchmark) :
    DBState × HostDBEntry :=
  if addErr then (st, host) else benchmarkHost st host rec

/-! ## The dispatcher/worker concurrency model (`scan.go` lines 183-234)

The interleaved executions of the dispatcher loop and the scan workers are
modelled as a step relation over an abstract scheduler state that counts the
queue, the counter, and the workers in each phase.  Each rule is one atomic
transition of the Go code. -/

/-- Abstract scheduler state: `queued` is `len(scanList)`; `scanThreads` the
Go `int` counter; `pending` the goroutines launched at line 191 that have not
yet passed `tg.Add()`; `live` the workers executing `scanHost`. -/
structure SchedState where
  queued : Nat
  scanThreads : Int
  pending : Nat
  live : Nat
  deriving Repr, DecidableEq

/-- One atomic transition of the dispatcher or of a scan worker. -/
inductive SchedStep : SchedState → SchedState → Prop
  /-- `getHostsForScan`/`queueScan` appends a host to `scanList` (line 37). -/
  | enqueue (q : Nat) (t : Int) (p l : Nat) :
      SchedStep ⟨q, t, p, l⟩ ⟨q + 1, t, p, l⟩
  /-- Lines 186-198: under the mutex, if `scanThreads < maxScanThreads`,
  increment it, pop the head of `scanList`, and launch the worker goroutine. -/
  | dispatch (q : Nat) (t : Int) (p l : Nat) :
      t < (maxScanThreads : Int) →
      SchedStep ⟨q + 1, t, p, l⟩ ⟨q, t + 1, p + 1, l⟩
  /-- Line 192: `tg.Add()` succeeds; the worker becomes live. -/
  | startOk (q : Nat) (t : Int) (p l : Nat) :
      SchedStep ⟨q, t, p + 1, l⟩ ⟨q, t, p, l + 1⟩
  /-- Lines 192-195: `tg.Add()` fails; the goroutine returns without
  touching the counter. -/
  | startFail (q : Nat) (t : Int) (p l : Nat) :
      SchedStep ⟨q, t, p + 1, l⟩ ⟨q, t, p, l⟩
  /-- Lines 156-160: a worker finishes `scanHost` normally and decrements
  `scanThreads`. -/
  | finish (q : Nat) (t : Int) (p l : Nat) :
      SchedStep ⟨q, t, p, l + 1⟩ ⟨q, t - 1, p, l⟩
  /-- Lines 118-121: a worker's scan is cancelled; `scanHost` returns early
  without decrementing `scanThreads`. -/
  | cancelExit (q : Nat) (t : Int) (p l : Nat) :
      SchedStep ⟨q, t, p, l + 1⟩ ⟨q, t, p, l⟩

/-- States reachable from the initial state (fresh `HostDB`: empty queue,
zero counter, no workers). -/
inductive SchedReachable : SchedState → Prop
  | init : SchedReachable ⟨0, 0, 0, 0⟩
  | step {s s' : SchedState} : SchedReachable s → SchedStep s s' → SchedReachable s'

/-! ## Claims -/

set_option maxHeartbeats 2000000 in
/-- **C6.** `calculateScanInterval` realises the spec's table exactly —
30 min when last-seen is unset or the elapsed time is at most 24 h, 1 h for
24 h–2 d, 2 h for 2 d–3 d, 4 h for 3 d–7 d, 6 h for 7 d–14 d, 12 h for
14 d–28 d, 24 h beyond 28 d — and is monotone non-decreasing in the elapsed
time. -/
theorem claimC6_interval_table :
    (calculateScanInterval none = 30 * minute) ∧
    (∀ s, s ≤ 24 * hour → calculateScanInterval (some s) = 30 * minute) ∧
    (∀ s, 24 * hour < s → s ≤ 2 * day → calculateScanInterval (some s) = 1 * hour) ∧
    (∀ s, 2 * day < s → s ≤ 3 * day → calculateScanInterval (some s) = 2 * hour) ∧
    (∀ s, 3 * day < s → s ≤ 7 * day → calculateScanInterval (some s) = 4 * hour) ∧
    (∀ s, 7 * day < s → s ≤ 14 * day → calculateScanInterval (some s) = 6 * hour) ∧
    (∀ s, 14 * day < s → s ≤ 28 * day → calculateScanInterval (some s) = 12 * hour) ∧
    (∀ s, 28 * day < s → calculateScanInterval (some s) = 24 * hour) ∧
    (∀ s t, s ≤ t → calculateScanInterval (some s) ≤ calculateScanInterval (some t)) := by
  refine ⟨rfl, ?_, ?_, ?_, ?_, ?_, ?_, ?_, ?_⟩ <;>
    first
      | (intro s h₁ h₂
         simp only [calculateScanInterval, scanInterval, day, hour, minute, second] at *
         split_ifs <;> omega)
      | (intro s h₁
         simp only [calculateScanInterval, scanInterval, day, hour, minute, second] at *
         split_ifs <;> omega)

/-- Witness for C6: a host last seen 25 hours ago gets a 1-hour interval. -/
theorem claimC6_interval_table_witness :
    calculateScanInterval (some (25 * hour)) = 1 * hour :=
  claimC6_interval_table.2.2.1 (25 * hour)
    (by simp only [day, hour, minute, second]; omega)
    (by simp only [day, hour, minute, second]; omega)

/-- **C5.** The adaptive timeout is 2 min whenever the latency buffer holds
fewer than 25 samples, exactly `min (5 × median) (2 min)` when it holds 25
samples, and on the spec's S3 example — 25 samples `10, 20, …, 250` ms with
median 130 ms — it is 650 ms. -/
theorem claimC5_timeout :
    (∀ lats : List Nat, lats.length < 25 → scanTimeout lats = 2 * minute) ∧
    (∀ lats : List Nat, lats.length = 25 →
      scanTimeout lats = min (5 * median lats) (2 * minute)) ∧
    scanTimeout ((List.range 25).map (fun i => (i + 1) * 10 * millisecond)) =
      650 * millisecond := by
  refine ⟨?_, ?_, by decide⟩
  · intro lats h
    have hne : lats.length ≠ minScans := by simp only [minScans]; omega
    simp only [scanTimeout, if_neg hne]
  · intro lats h
    simp only [scanTimeout, median, minScans, h, if_pos, Nat.min_def]
    split_ifs <;> simp only [minute, second] at * <;> omega

/-- Witness for C5 at concrete inputs: an empty buffer gives the 2-minute
default, and a full buffer of 25 equal 10 ms samples gives
`min (5 × 10 ms) (2 min)`. -/
theorem claimC5_timeout_witness :
    scanTimeout [] = 2 * minute ∧
    scanTimeout (List.replicate 25 (10 * millisecond)) =
      min (5 * median (List.replicate 25 (10 * millisecond))) (2 * minute) :=
  ⟨claimC5_timeout.1 [] (by decide),
   claimC5_timeout.2.1 (List.replicate 25 (10 * millisecond)) (by decide)⟩

/-- **C4.** The latency buffer keeps length ≤ 25; a sample is appended only
on a successful scan while the length is below 25; when the length reaches
exactly 25 the buffer is sorted ascending once; and at length 25 the update
is the identity, so the buffer never changes thereafter. -/
theorem claimC4_latency_buffer (lats : List Nat) (success : Bool) (lat : Nat)
    (h : lats.length ≤ 25) :
    ((updateLatencies lats success lat).length ≤ 25) ∧
    (lats.length = 25 → updateLatencies lats success lat = lats) ∧
    (success = false ∨ 25 ≤ lats.length → updateLatencies lats success lat = lats) ∧
    (success = true → lats.length + 1 < 25 →
      updateLatencies lats success lat = lats ++ [lat]) ∧
    (success = true → lats.length + 1 = 25 →
      updateLatencies lats success lat = (lats ++ [lat]).insertionSort (· ≤ ·) ∧
      List.Sorted (· ≤ ·) (updateLatencies lats success lat) ∧
      (updateLatencies lats success lat).Perm (lats ++ [lat])) := by
  have hlen : ∀ l : List Nat, (l.insertionSort (· ≤ ·)).length = l.length :=
    fun l => (List.perm_insertionSort (· ≤ ·) l).length_eq
  refine ⟨?_, ?_, ?_, ?_, ?_⟩
  · simp only [updateLatencies]
    split_ifs with h₁ h₂
    · rw [hlen]
      simp only [List.length_append, List.length_cons, List.length_nil]
      omega
    · simp only [List.length_append, List.length_cons, List.length_nil]; omega
    · exact h
  · intro h25
    simp only [updateLatencies, h25]
    norm_num
  · intro hcase
    have : ¬ (success = true ∧ lats.length < 25) := by
      rcases hcase with hf | hge
      · simp [hf]
      · intro hc; omega
    simp only [updateLatencies, eq_self_iff_true]
    rw [if_neg]
    intro hc
    exact this ⟨by simpa using hc.1, hc.2⟩
  · intro hs hlt
    have hc : success = true ∧ lats.length < 25 := ⟨hs, by omega⟩
    simp only [updateLatencies, hs, true_and, if_pos hc.2]
    rw [if_neg]
    simp only [List.length_append, List.length_cons, List.length_nil]
    omega
  · intro hs h24
    have hc : lats.length < 25 := by omega
    have hlen25 : (lats ++ [lat]).length = 25 := by
      simp only [List.length_append, List.length_cons, List.length_nil]; omega
    constructor
    · simp only [updateLatencies, hs, true_and, if_pos hc, if_pos hlen25]
    · constructor
      · simp only [updateLatencies, hs, true_and, if_pos hc, if_pos hlen25]
        exact List.sorted_insertionSort (· ≤ ·) (lats ++ [lat])
      · simp only [updateLatencies, hs, true_and, if_pos hc, if_pos hlen25]
        exact List.perm_insertionSort (· ≤ ·) (lats ++ [lat])

/-- Witness for C4 at a concrete input: appending the 25th sample `2` to the
24-element buffer `24, 23, …, 1` sorts the buffer. -/
theorem claimC4_latency_buffer_witness :
    updateLatencies ((List.range 24).map (fun i => 24 - i)) true 2 =
      (((List.range 24).map (fun i => 24 - i)) ++ [2]).insertionSort (· ≤ ·) :=
  ((claimC4_latency_buffer ((List.range 24).map (fun i => 24 - i)) true 2
    (by decide)).2.2.2.2 rfl (by decide)).1

/-- **C1 counterexample.** A scan whose protocol attempt fails with
`"context canceled"`: no record is written and no counter incremented, but —
contrary to the claim — the worker does *not* perform the bookkeeping: the
early `return` at `scan.go` line 120 skips lines 156-160, so the host's entry
stays in `scanMap` and `scanThreads` keeps its value `1`. -/
theorem claimC1_cancel_counterexample :
    (scanHost ⟨false, [], [], [], [(5, false)], 1⟩
        ⟨5, "h:9982", [], ⟨0, false, "", 0, 0, 0⟩, ⟨0, 0, 0, 0, 0⟩, none, [], 0⟩
        ⟨none, 0, 0, 0, .error "context canceled", .ok 0, 0, true⟩).2.2.record = none ∧
    (scanHost ⟨false, [], [], [], [(5, false)], 1⟩
        ⟨5, "h:9982", [], ⟨0, false, "", 0, 0, 0⟩, ⟨0, 0, 0, 0, 0⟩, none, [], 0⟩
        ⟨none, 0, 0, 0, .error "context canceled", .ok 0, 0, true⟩).1.scanMap = [(5, false)] ∧
    (scanHost ⟨false, [], [], [], [(5, false)], 1⟩
        ⟨5, "h:9982", [], ⟨0, false, "", 0, 0, 0⟩, ⟨0, 0, 0, 0, 0⟩, none, [], 0⟩
        ⟨none, 0, 0, 0, .error "context canceled", .ok 0, 0, true⟩).1.scanThreads = 1 := by
  decide

/-- **C1 (amended).** When the protocol error carries the cancellation
marker, the scan is abandoned: no `ScanRecord` is written, neither
interaction counter is incremented, and the scanner state is returned
untouched — which also means the normal bookkeeping is *skipped*: the host
stays in the in-flight map and `scanThreads` is not decremented.  Only the
pre-attempt host mutations (IP-net adjustment and interaction decay)
remain. -/
theorem claimC1_cancel_amended (st : DBState) (host : HostDBEntry) (env : ScanEnv)
    (h : scanCanceled env = true) :
    scanHost st host env =
      (st, decayHost env.epoch (adjustIPNets host env), ⟨none, false, false⟩) := by
  simp [scanHost, h]

/-- Witness for the amended C1 at a concrete cancelled scan. -/
theorem claimC1_cancel_amended_witness :
    scanHost ⟨false, [], [], [], [(5, false)], 1⟩
        ⟨5, "h:9982", [], ⟨0, false, "", 0, 0, 0⟩, ⟨0, 0, 0, 0, 0⟩, none, [], 0⟩
        ⟨none, 0, 0, 0, .error "context canceled", .ok 0, 0, true⟩ =
      (⟨false, [], [], [], [(5, false)], 1⟩,
        decayHost 0 (adjustIPNets
          ⟨5, "h:9982", [], ⟨0, false, "", 0, 0, 0⟩, ⟨0, 0, 0, 0, 0⟩, none, [], 0⟩
          ⟨none, 0, 0, 0, .error "context canceled", .ok 0, 0, true⟩),
        ⟨none, false, false⟩) :=
  claimC1_cancel_amended ⟨false, [], [], [], [(5, false)], 1⟩
    ⟨5, "h:9982", [], ⟨0, false, "", 0, 0, 0⟩, ⟨0, 0, 0, 0, 0⟩, none, [], 0⟩
    ⟨none, 0, 0, 0, .error "context canceled", .ok 0, 0, true⟩ (by decide)

/-- **C2 counterexample.** A scan whose RHP-v2 phase succeeds (settings `7`)
and whose RHP-v3 phase fails with `"boom"`: the record is marked successful
yet carries the non-empty error text `"boom"`, and it is the *failure*
counter that is incremented. -/
theorem claimC2_record_counterexample :
    (scanHost ⟨false, [], [], [], [(5, false)], 1⟩
        ⟨5, "h:9982", [], ⟨0, false, "", 0, 0, 0⟩, ⟨0, 0, 0, 0, 0⟩, none, [], 0⟩
        ⟨none, 0, 0, 100, .ok 7, .error "boom", 42, true⟩).2.2.record =
      some ⟨100, true, 42, "boom", 7, 0⟩ ∧
    (scanHost ⟨false, [], [], [], [(5, false)], 1⟩
        ⟨5, "h:9982", [], ⟨0, false, "", 0, 0, 0⟩, ⟨0, 0, 0, 0, 0⟩, none, [], 0⟩
        ⟨none, 0, 0, 100, .ok 7, .error "boom", 42, true⟩).2.2.incSuccess = false ∧
    (scanHost ⟨false, [], [], [], [(5, false)], 1⟩
        ⟨5, "h:9982", [], ⟨0, false, "", 0, 0, 0⟩, ⟨0, 0, 0, 0, 0⟩, none, [], 0⟩
        ⟨none, 0, 0, 100, .ok 7, .error "boom", 42, true⟩).2.2.incFailure = true := by
  decide

/-- **C2 (amended).** For every ScanRecord written by a non-cancelled scan:
its success flag is set exactly on RHP-v2 success (regardless of the RHP-v3
outcome); its error text is the final protocol error, empty exactly when the
closure returned nil; and `incrementSuccess` is called exactly when the final
error is nil — so `incrementFailure`, not `incrementSuccess`, is called for a
scan marked successful whose RHP-v3 phase failed. -/
theorem claimC2_record_amended (st : DBState) (host : HostDBEntry) (env : ScanEnv)
    (h : scanCanceled env = false) :
    (scanHost st host env).2.2.record =
      some
        { timestamp := env.start
          success := scanSuccess env
          latency := env.latency
          error := (scanErr env).getD ""
          settings := scanSettings env
          priceTable := scanPriceTable env } ∧
    (scanHost st host env).2.2.incSuccess = (scanErr env).isNone ∧
    (scanHost st host env).2.2.incFailure = !(scanErr env).isNone ∧
    (scanErr env = none → (scanErr env).getD "" = "") := by
  cases hE : scanErr env <;>
    simp [scanHost, h, hE]

/-- Witness for the amended C2 at a fully successful concrete scan. -/
theorem claimC2_record_amended_witness :
    (scanHost ⟨false, [], [], [], [(5, false)], 1⟩
        ⟨5, "h:9982", [], ⟨0, false, "", 0, 0, 0⟩, ⟨0, 0, 0, 0, 0⟩, none, [], 0⟩
        ⟨none, 0, 0, 100, .ok 7, .ok 9, 42, true⟩).2.2.record =
      some
        { timestamp := 100
          success := scanSuccess ⟨none, 0, 0, 100, .ok 7, .ok 9, 42, true⟩
          latency := 42
          error := (scanErr ⟨none, 0, 0, 100, .ok 7, .ok 9, 42, true⟩).getD ""
          settings := scanSettings ⟨none, 0, 0, 100, .ok 7, .ok 9, 42, true⟩
          priceTable := scanPriceTable ⟨none, 0, 0, 100, .ok 7, .ok 9, 42, true⟩ } :=
  (claimC2_record_amended ⟨false, [], [], [], [(5, false)], 1⟩
    ⟨5, "h:9982", [], ⟨0, false, "", 0, 0, 0⟩, ⟨0, 0, 0, 0, 0⟩, none, [], 0⟩
    ⟨none, 0, 0, 100, .ok 7, .ok 9, 42, true⟩ (by decide)).1

/-- **C3 counterexample.** The state with `scanThreads = 1` and no pending or
live worker is reachable — enqueue a host, dispatch it (incrementing the
counter), then let its `tg.Add()` fail — so the counter does not equal the
number of live scan workers at every instant. -/
theorem claimC3_scheduler_counterexample :
    SchedReachable ⟨0, 1, 0, 0⟩ ∧
    (SchedState.mk 0 1 0 0).scanThreads ≠ ((SchedState.mk 0 1 0 0).live : Int) := by
  refine ⟨?_, by decide⟩
  have h0 : SchedReachable ⟨0, 0, 0, 0⟩ := .init
  have h1 : SchedReachable ⟨1, 0, 0, 0⟩ := .step h0 (.enqueue 0 0 0 0)
  have h2 : SchedReachable ⟨0, 1, 1, 0⟩ := .step h1 (.dispatch 0 0 0 0 (by decide))
  exact .step h2 (.startFail 0 1 0 0)

/-- **C3 (amended).** In every reachable scheduler state the counter
`scanThreads` never exceeds 100 and is an *upper bound* on the number of
launched-or-live scan workers (registration failure and cancellation leak the
counter, so equality with the live count can fail permanently); and the only
step that increments the counter is a dispatch, which requires the counter to
be strictly below 100 and raises it by exactly one. -/
theorem claimC3_scheduler_amended :
    (∀ s : SchedState, SchedReachable s →
      s.scanThreads ≤ (maxScanThreads : Int) ∧
      (s.pending : Int) + (s.live : Int) ≤ s.scanThreads) ∧
    (∀ s s' : SchedState, SchedStep s s' → s.scanThreads < s'.scanThreads →
      s.scanThreads < (maxScanThreads : Int) ∧ s'.scanThreads = s.scanThreads + 1) := by
  constructor
  · intro s hs
    induction hs with
    | init => exact ⟨by simp [maxScanThreads], by simp⟩
    | step hr hstep ih =>
      cases hstep <;> simp_all [maxScanThreads] <;> omega
  · intro s s' hstep hlt
    cases hstep <;> simp_all [maxScanThreads] <;> try omega

/-- Witness for the amended C3 at the initial state. -/
theorem claimC3_scheduler_amended_witness :
    (SchedState.mk 0 0 0 0).scanThreads ≤ (maxScanThreads : Int) :=
  (claimC3_scheduler_amended.1 ⟨0, 0, 0, 0⟩ .init).1

/-- **C10.** When a scan is abandoned because of cancellation, every mutation
performed before the protocol attempt persists on the host: the IP-net set
and `LastIPChange` (when resolution succeeded with a changed set) and the
interaction counters decayed to the current epoch; and nothing else happened
— the scanner state is untouched and no record was written. -/
theorem claimC10_cancel_frame (st : DBState) (host : HostDBEntry) (env : ScanEnv)
    (nets : List String) (hc : scanCanceled env = true)
    (hres : env.resolved = some nets)
    (hdiff : equalIPNets nets host.ipNets = false) :
    (scanHost st host env).2.1.ipNets = nets ∧
    (scanHost st host env).2.1.lastIPChange = env.resolveTime ∧
    (scanHost st host env).2.1.interactions =
      updateHostHistoricInteractions env.epoch host.interactions ∧
    (scanHost st host env).1 = st ∧
    (scanHost st host env).2.2.record = none := by
  simp [scanHost, hc, adjustIPNets, hres, hdiff, decayHost]

/-- Witness for C10: a cancelled scan of a host whose resolution returned the
changed set `["10.0.0.0/8"]` keeps the new set, the resolution timestamp
`99`, and the counters decayed to epoch `3`. -/
theorem claimC10_cancel_frame_witness :
    (scanHost ⟨false, [], [], [], [(5, false)], 1⟩
        ⟨5, "h:9982", [], ⟨0, false, "", 0, 0, 0⟩, ⟨1, 2, 3, 4, 0⟩, none, [], 0⟩
        ⟨some ["10.0.0.0/8"], 99, 3, 0, .error "context canceled", .ok 0, 0, true⟩).2.1.ipNets =
      ["10.0.0.0/8"] ∧
    (scanHost ⟨false, [], [], [], [(5, false)], 1⟩
        ⟨5, "h:9982", [], ⟨0, false, "", 0, 0, 0⟩, ⟨1, 2, 3, 4, 0⟩, none, [], 0⟩
        ⟨some ["10.0.0.0/8"], 99, 3, 0, .error "context canceled", .ok 0, 0, true⟩).2.1.lastIPChange =
      99 ∧
    (scanHost ⟨false, [], [], [], [(5, false)], 1⟩
        ⟨5, "h:9982", [], ⟨0, false, "", 0, 0, 0⟩, ⟨1, 2, 3, 4, 0⟩, none, [], 0⟩
        ⟨some ["10.0.0.0/8"], 99, 3, 0, .error "context canceled", .ok 0, 0, true⟩).2.1.interactions =
      updateHostHistoricInteractions 3 ⟨1, 2, 3, 4, 0⟩ := by
  have h := claimC10_cancel_frame ⟨false, [], [], [], [(5, false)], 1⟩
    ⟨5, "h:9982", [], ⟨0, false, "", 0, 0, 0⟩, ⟨1, 2, 3, 4, 0⟩, none, [], 0⟩
    ⟨some ["10.0.0.0/8"], 99, 3, 0, .error "context canceled", .ok 0, 0, true⟩
    ["10.0.0.0/8"] (by decide) rfl (by decide)
  exact ⟨h.1, h.2.1, h.2.2.1⟩

/-- **C7.** For a host not already in flight, `queueScan` routes it to the
benchmark queue exactly when its scan history is non-empty and the time since
its newest scan record is strictly below `calculateScanInterval(host)`;
otherwise — in particular whenever the history is empty — it goes to the scan
queue; and the new in-flight entry records which queue was chosen. -/
theorem claimC7_queue_routing (st : DBState) (now : Nat) (host : HostDBEntry)
    (h : st.scanMap.lookup host.publicKey = none) :
    (host.scanHistory = [] →
      queueScan st now host =
        { st with
            scanMap := (host.publicKey, false) :: st.scanMap
            scanList := st.scanList ++ [host] }) ∧
    (∀ sc, host.scanHistory.getLast? = some sc →
      (now - sc.timestamp < hostScanInterval now host →
        queueScan st now host =
          { st with
              scanMap := (host.publicKey, true) :: st.scanMap
              benchmarkList := st.benchmarkList ++ [host] }) ∧
      (hostScanInterval now host ≤ now - sc.timestamp →
        queueScan st now host =
          { st with
              scanMap := (host.publicKey, false) :: st.scanMap
              scanList := st.scanList ++ [host] })) := by
  constructor
  · intro hemp
    simp [queueScan, h, hemp]
  · intro sc hsc
    constructor
    · intro hfresh
      simp [queueScan, h, hsc, hfresh]
    · intro hstale
      simp [queueScan, h, hsc, Nat.not_lt.mpr hstale]

/-- Witness for C7: a host with empty history and a free in-flight map is
appended to the scan queue with a scan-marked in-flight entry. -/
theorem claimC7_queue_routing_witness :
    queueScan ⟨false, [], [], [], [], 0⟩ 0
        ⟨7, "host:9982", [], ⟨0, false, "", 0, 0, 0⟩, ⟨0, 0, 0, 0, 0⟩, none, [], 0⟩ =
      ⟨false, [], [⟨7, "host:9982", [], ⟨0, false, "", 0, 0, 0⟩, ⟨0, 0, 0, 0, 0⟩, none, [], 0⟩],
        [], [(7, false)], 0⟩ :=
  (claimC7_queue_routing ⟨false, [], [], [], [], 0⟩ 0
    ⟨7, "host:9982", [], ⟨0, false, "", 0, 0, 0⟩, ⟨0, 0, 0, 0, 0⟩, none, [], 0⟩ rfl).1 rfl

/-- **C8.** `queueScan` on a host whose public key is already in the in-flight
map is a no-op: the whole scanner state — both queues, the map, the counter,
and the benchmarking flag — is returned unchanged. -/
theorem claimC8_inflight_noop (st : DBState) (now : Nat) (host : HostDBEntry)
    (b : Bool) (h : st.scanMap.lookup host.publicKey = some b) :
    queueScan st now host = st := by
  simp [queueScan, h]

/-- Witness for C8: re-queueing the in-flight host `7` changes nothing. -/
theorem claimC8_inflight_noop_witness :
    queueScan ⟨false, [], [], [], [(7, true)], 3⟩ 5
        ⟨7, "host:9982", [], ⟨0, false, "", 0, 0, 0⟩, ⟨0, 0, 0, 0, 0⟩, none, [], 0⟩ =
      ⟨false, [], [], [], [(7, true)], 3⟩ :=
  claimC8_inflight_noop ⟨false, [], [], [], [(7, true)], 3⟩ 5
    ⟨7, "host:9982", [], ⟨0, false, "", 0, 0, 0⟩, ⟨0, 0, 0, 0, 0⟩, none, [], 0⟩ true rfl

/-- **C9.** A worker (scan or benchmark) whose thread-group registration
fails returns without performing its task and without mutating any scanner
state: the state, the host, and — for the scan worker — the effect record
are exactly as before, with no scan record and no counter increments. -/
theorem claimC9_lifecycle_refusal (addErr : Bool) (st : DBState) (host : HostDBEntry)
    (env : ScanEnv) (rec : HostBenchmark) (h : addErr = true) :
    scanWorker addErr st host env = (st, host, ⟨none, false, false⟩) ∧
    benchmarkWorker addErr st host rec = (st, host) := by
  subst h
  exact ⟨rfl, rfl⟩

/-- Witness for C9 at concrete inputs. -/
theorem claimC9_lifecycle_refusal_witness :
    scanWorker true ⟨false, [], [], [], [(7, false)], 1⟩
        ⟨7, "host:9982", [], ⟨0, false, "", 0, 0, 0⟩, ⟨0, 0, 0, 0, 0⟩, none, [], 0⟩
        ⟨none, 0, 0, 0, .error "x", .ok 0, 0, true⟩ =
      (⟨false, [], [], [], [(7, false)], 1⟩,
        ⟨7, "host:9982", [], ⟨0, false, "", 0, 0, 0⟩, ⟨0, 0, 0, 0, 0⟩, none, [], 0⟩,
        ⟨none, false, false⟩) :=
  (claimC9_lifecycle_refusal true ⟨false, [], [], [], [(7, false)], 1⟩
    ⟨7, "host:9982", [], ⟨0, false, "", 0, 0, 0⟩, ⟨0, 0, 0, 0, 0⟩, none, [], 0⟩
    ⟨none, 0, 0, 0, .error "x", .ok 0, 0, true⟩
    ⟨0, false, "", 0, 0, 0⟩ rfl).1

end HostDB
